import Mathlib

/-!
Shallow embedding of `src/server/health_data_parser.py` (class `HealthDataParser`,
methods `get_sleep_data` and `parse_activity_data`).

Modelling conventions:
- Calendar dates (the `YYYY-MM-DD` parts of `startDate`/`endDate` attributes) are
  integers (day numbers); lexicographic order on valid date strings coincides with
  numeric order, and `timedelta` day arithmetic becomes integer arithmetic.
- Timestamps inside a day are absolute instants in minutes, as rationals; the Python
  float arithmetic on durations, sums and unit conversions is modelled over `ℚ`
  with the decimal literals of the source read as exact rationals.
- The XML source is a list of already-extracted `Record` attribute tuples plus a
  `malformed` flag: `records` are the elements the streaming parser yields before
  the structural failure (if any); `malformed = true` means the parse fails after
  them (for the sleep path, which parses the whole tree up front with `ET.parse`,
  a malformed source yields no usable records at all and is caught).
- Missing XML attributes are `Option.none`; `elem.get(k, d)` is `Option.getD`.
- `print`/log-file output, debug counters and the transient `debug_records` entries
  (deleted before the result is assembled) are not modelled: they do not affect
  the returned value.
-/

namespace HealthData

/-- Python's `needle in hay` substring test on strings. -/
def containsSub (hay needle : String) : Bool :=
  decide (needle.toList <:+: hay.toList)

def lowerChar (c : Char) : Char :=
  if 'A' ≤ c ∧ c ≤ 'Z' then Char.ofNat (c.toNat + 32) else c

/-- Python's `str.lower()` (ASCII case folding suffices for the strings involved). -/
def pyLower (s : String) : String := ⟨s.data.map lowerChar⟩

/-- Python's `int(float)`: truncation toward zero (for `q < 0` this is `-⌊-q⌋`). -/
def pyTrunc (q : ℚ) : Int := if 0 ≤ q then ⌊q⌋ else -(⌊-q⌋)

/-- Python's `round(x, 2)` modelled as decimal rounding to 2 places on rationals. -/
def round2 (q : ℚ) : ℚ := (⌊q * 100 + 1/2⌋ : ℚ) / 100

/-- An export source: the records the scanner yields, and whether the underlying
markup is structurally malformed (the parse fails after yielding `records`). -/
structure XmlSource (α : Type) where
  records : List α
  malformed : Bool

/-! ## Sleep path: `get_sleep_data` -/

/-- One `Record` element of type `HKCategoryTypeIdentifierSleepAnalysis`, as the
sleep pass sees it.
`startRaw = none` models a missing/empty `startDate` attribute;
`startRaw = some (d, t)` models a present attribute whose date part
(`split()[0]`, also what `strftime` returns after a successful round-trip) is `d`,
and whose full `"%Y-%m-%d %H:%M:%S %z"` parse yields the absolute instant `t`
in minutes (`t = none`: `strptime` raises, i.e. unparsable time part).
`endRaw` likewise for `endDate` (its date part is never used). -/
structure SleepRecord where
  startRaw : Option (Int × Option ℚ)
  endRaw : Option (Option ℚ)
  value : String

/-- The six accumulator fields of one sleep day bucket (the `"date"` entry of the
Python dict is the bucket's key and is kept alongside, see `anyValues`). -/
structure SBucket where
  inBed : ℚ := 0
  asleep : ℚ := 0
  deep : ℚ := 0
  rem : ℚ := 0
  light : ℚ := 0
  awake : ℚ := 0
deriving DecidableEq

def SBucket.zero : SBucket := {}

/-- The `sleep_data` dict: keys in insertion order, and the bucket at each date
(dates not in `keys` map to the zero bucket and are never read). -/
structure SleepState where
  keys : List Int
  f : Int → SBucket

/-- Lines 244-259: the `if/elif` chain updating the bucket from the record's
`value` text and the computed duration. -/
def classify (v : String) (dur : ℚ) (b : SBucket) : SBucket :=
  if containsSub v "InBed" then
    { b with inBed := b.inBed + dur }
  else if containsSub v "AsleepCore" || containsSub v "Core" then
    { b with asleep := b.asleep + dur, light := b.light + dur }
  else if containsSub v "AsleepDeep" || containsSub v "Deep" then
    { b with asleep := b.asleep + dur, deep := b.deep + dur }
  else if containsSub v "AsleepREM" || containsSub v "REM" then
    { b with asleep := b.asleep + dur, rem := b.rem + dur }
  else if containsSub v "Asleep" then
    { b with asleep := b.asleep + dur, light := b.light + dur }
  else if containsSub v "Awake" then
    { b with awake := b.awake + dur }
  else
    b

/-- Update of the bucket at date `d` by `classify` (lines 244-259 write through
`sleep_data[date_str]`). -/
def sleepAdd (st : SleepState) (d : Int) (v : String) (dur : ℚ) : SleepState :=
  { st with f := fun d' => if d' = d then classify v dur (st.f d') else st.f d' }

/-- Lines 191-265: processing of one sleep record in the accumulation pass.
Missing start or end date, an unparsable timestamp (the `strptime` exception is
caught at line 261 and the loop continues), or a non-positive duration all skip
the record. Otherwise the bucket at the start date's calendar date is updated
(line 217 creates it on demand when absent). -/
def sleepStep (st : SleepState) (r : SleepRecord) : SleepState :=
  match r.startRaw with
  | none => st
  | some (d, ts) =>
    match r.endRaw with
    | none => st
    | some te =>
      match ts with
      | none => st
      | some s =>
        match te with
        | none => st
        | some e =>
          if e - s ≤ 0 then st
          else
            sleepAdd (if d ∈ st.keys then st else { st with keys := st.keys ++ [d] })
              d r.value (e - s)

/-- Lines 154-160: the set of observed start-date parts (`startDate.split()[0]`
of every sleep record whose `startDate` attribute is present and non-empty). -/
def sleepDatesOf (rs : List SleepRecord) : List Int :=
  rs.filterMap (fun r => r.startRaw.map Prod.fst)

/-- Lines 168-188: the bucket keys initialized up front. `delta_days` is
`(maxDate - minDate).days + 1` and the loop runs `range(delta_days + 1)`,
so dates `minDate, minDate + 1, ..., minDate + delta_days` are created. -/
def sleepInitKeys (rs : List SleepRecord) : List Int :=
  match sleepDatesOf rs with
  | [] => []
  | d :: rest =>
    let mn := rest.foldl min d
    let mx := rest.foldl max d
    let deltaDays := mx - mn + 1
    (List.range (deltaDays + 1).toNat).map (fun (i : ℕ) => mn + (i : Int))

/-- Line 278: `any(data.values())` over the bucket dict. The dict's values are
the date string (`"YYYY-MM-DD"`, never empty, rendered here as `toString` of the
day number) followed by the six numeric fields, so the test also looks at the
truthiness of the date string. -/
def anyValues (d : Int) (b : SBucket) : Bool :=
  decide (toString d ≠ "") || decide (b.inBed ≠ 0) || decide (b.asleep ≠ 0) ||
    decide (b.deep ≠ 0) || decide (b.rem ≠ 0) || decide (b.light ≠ 0) ||
    decide (b.awake ≠ 0)

/-- One emitted sleep day record (minutes, unrounded). -/
structure SleepOut where
  date : Int
  inBed : ℚ
  asleep : ℚ
  deep : ℚ
  rem : ℚ
  light : ℚ
  awake : ℚ
deriving DecidableEq

def mkSleepOut (d : Int) (b : SBucket) : SleepOut :=
  ⟨d, b.inBed, b.asleep, b.deep, b.rem, b.light, b.awake⟩

/-- Model of `get_sleep_data(days)` on a source. Any exception inside the big `try`
(including the XML parse failure, lines 134-140) is caught and the default
empty list is returned; with no sleep records or no observed dates the empty
list is returned (lines 149-151, 164-166). Otherwise: initialize buckets over
the computed span, fold the accumulation pass over the records, keep the days
passing `anyValues`, sort descending by date and truncate to `days`
(lines 267-286). -/
def getSleepData (days : Nat) (src : XmlSource SleepRecord) : List SleepOut :=
  if src.malformed then []
  else if src.records.isEmpty then []
  else if (sleepDatesOf src.records).isEmpty then []
  else
    let keys := sleepInitKeys src.records
    let st0 : SleepState := ⟨keys, fun _ => SBucket.zero⟩
    let st := src.records.foldl sleepStep st0
    let outs := (st.keys.filter (fun d => anyValues d (st.f d))).map
      (fun d => mkSleepOut d (st.f d))
    ((outs.insertionSort (fun a b => b.date ≤ a.date)).take days)

/-! ## Activity path: `parse_activity_data` -/

/-- The three `RecordType` enumeration values (lines 12-15). -/
def stepCountType : String := "HKQuantityTypeIdentifierStepCount"
def distanceType : String := "HKQuantityTypeIdentifierDistanceWalkingRunning"
def activeEnergyType : String := "HKQuantityTypeIdentifierActiveEnergyBurned"

/-- The `value` attribute as the activity pass sees it: missing or empty
(falsy, line 367), present but non-numeric (`float` raises, line 370-373),
or a parsed number. -/
inductive ValField
  | missing
  | nan
  | num (q : ℚ)

/-- One `Record` element as the activity pass reads it. `startDate = some d`
is the date part of a present, non-empty `startDate` attribute. -/
structure ARecord where
  type_ : Option String
  startDate : Option Int
  value : ValField
  unit : Option String
  sourceName : Option String

structure ABucket where
  steps : Int := 0
  distance : ℚ := 0
  energy : ℚ := 0
deriving DecidableEq

def ABucket.zero : ABucket := {}

/-- The loop state: `source` is the function-local variable assigned only in the
step-count branch (line 378) and read by the distance/energy branches; `f` is
`daily_data` (keys fixed to the window); `tally` is `source_counts`. -/
structure ActState where
  source : Option String
  f : Int → ABucket
  tally : Int → String → Int

/-- Errors that escape `parse_activity_data`: reading the unassigned `source`
local raises `UnboundLocalError` (a `NameError`, not among the caught
`ValueError/AttributeError/TypeError`, so it aborts the call), and a structural
XML failure is re-raised as `ValueError` (lines 441-442). -/
inductive ActErr
  | unboundLocal
  | parseError
deriving DecidableEq

/-- Lines 400-408: distance unit conversion; `unit` is already lowercased. -/
def distConv (v : ℚ) (unit : String) : ℚ :=
  if containsSub unit "mi" then v * (160934 / 100000)
  else if containsSub unit "ft" then v * (3048 / 10000000)
  else if containsSub unit "m" then v / 1000
  else v / 1000

/-- Lines 418-424: energy unit conversion; `unit` is already lowercased. -/
def energyConv (v : ℚ) (unit : String) : ℚ :=
  if containsSub unit "kj" then v * (239006 / 1000000)
  else if containsSub unit "j" then v * (239006 / 1000000000)
  else v

def addSteps (st : ActState) (d : Int) (n : Int) : ActState :=
  { st with f := fun d' => if d' = d then { st.f d' with steps := (st.f d').steps + n } else st.f d' }

def addDist (st : ActState) (d : Int) (x : ℚ) : ActState :=
  { st with f := fun d' => if d' = d then { st.f d' with distance := (st.f d').distance + x } else st.f d' }

def addEnergy (st : ActState) (d : Int) (x : ℚ) : ActState :=
  { st with f := fun d' => if d' = d then { st.f d' with energy := (st.f d').energy + x } else st.f d' }

def bumpTally (t : Int → String → Int) (d : Int) (s : String) (n : Int) : Int → String → Int :=
  fun d' s' => if d' = d ∧ s' = s then t d' s' + n else t d' s'

/-- Lines 334-439: processing of one parsed element. Skips (the various
`continue` statements and the caught per-record exceptions) leave the state
unchanged; reading the never-assigned `source` local raises. -/
def processElem (keys : List Int) (st : ActState) (e : ARecord) : Except ActErr ActState :=
  match e.type_ with
  | none => .ok st
  | some t =>
    if t = "" then .ok st
    else if ¬ (t = stepCountType ∨ t = distanceType ∨ t = activeEnergyType) then .ok st
    else
      match e.startDate with
      | none => .ok st
      | some d =>
        if d ∉ keys then .ok st
        else
          match e.value with
          | .missing => .ok st
          | .nan => .ok st
          | .num v =>
            let unit := pyLower (e.unit.getD "")
            if t = stepCountType then
              let stepValue := pyTrunc v
              let source := pyLower (e.sourceName.getD "unknown")
              let st := { st with source := some source,
                                  tally := bumpTally st.tally d source stepValue }
              if containsSub source "watch" then .ok (addSteps st d stepValue)
              else .ok st
            else if t = distanceType then
              match st.source with
              | none => .error .unboundLocal
              | some s =>
                if containsSub (pyLower s) "watch" then
                  .ok (addDist st d (distConv v unit))
                else .ok st
            else
              match st.source with
              | none => .error .unboundLocal
              | some s =>
                if containsSub (pyLower s) "watch" then
                  .ok (addEnergy st d (energyConv v unit))
                else .ok st

/-- One emitted activity day record (`ActivityRecord.to_dict`, lines 24-30):
distance and energy rounded to 2 decimals. -/
structure ActOut where
  date : Int
  steps : Int
  distance : ℚ
  energy : ℚ
deriving DecidableEq

/-- Lines 298-315: `days = min(days, 30)`; the window's dates are
`start_date + i` for `i in range(days)` with `start_date = end_date - (days-1)`
(dates only, `today` being the calendar date of `now`). `range` of a
non-positive count is empty. -/
def windowKeys (today : Int) (days : Int) : List Int :=
  (List.range (min days 30).toNat).map
    (fun (i : ℕ) => (today - (min days 30 - 1)) + (i : Int))

/-- Lines 447-449: serialize the buckets in window order and sort ascending by date. -/
def assembleActivity (keys : List Int) (st : ActState) : List ActOut :=
  (keys.map (fun d => (⟨d, (st.f d).steps, round2 (st.f d).distance,
      round2 (st.f d).energy⟩ : ActOut))).insertionSort
    (fun a b => a.date ≤ b.date)

/-- Model of `parse_activity_data(days)` on a source. Records yielded by `iterparse` are
processed in order (an uncaught `UnboundLocalError` aborts immediately); if the
markup then turns out malformed, `ET.ParseError` is re-raised as `ValueError`
(line 442), discarding the accumulated buckets; otherwise the window's buckets
are serialized and sorted. -/
def parseActivityData (today : Int) (days : Int) (src : XmlSource ARecord) :
    Except ActErr (List ActOut) :=
  let keys := windowKeys today days
  let st0 : ActState := ⟨none, fun _ => ABucket.zero, fun _ _ => 0⟩
  match src.records.foldlM (processElem keys) st0 with
  | .error e => .error e
  | .ok st =>
    if src.malformed then .error .parseError
    else .ok (assembleActivity keys st)

/-! ## Claim-side definitions and concrete fixtures -/

/-- Stated from the claim C6 wording (spec section 4.5 step 4): precedence order
InBed, Core, Deep, REM, Asleep (generic fallback), Awake, first match winning,
with the stated field additions. Compared against `classify` taken from the code. -/
def classifyClaimed (v : String) (dur : ℚ) (b : SBucket) : SBucket :=
  if containsSub v "InBed" then
    { b with inBed := b.inBed + dur }
  else if containsSub v "Core" then
    { b with asleep := b.asleep + dur, light := b.light + dur }
  else if containsSub v "Deep" then
    { b with asleep := b.asleep + dur, deep := b.deep + dur }
  else if containsSub v "REM" then
    { b with asleep := b.asleep + dur, rem := b.rem + dur }
  else if containsSub v "Asleep" then
    { b with asleep := b.asleep + dur, light := b.light + dur }
  else if containsSub v "Awake" then
    { b with awake := b.awake + dur }
  else
    b

/-- Fieldwise order on sleep buckets. -/
def sBucketLe (a b : SBucket) : Prop :=
  a.inBed ≤ b.inBed ∧ a.asleep ≤ b.asleep ∧ a.deep ≤ b.deep ∧
    a.rem ≤ b.rem ∧ a.light ≤ b.light ∧ a.awake ≤ b.awake

/-- Fieldwise order on activity buckets. -/
def aBucketLe (a b : ABucket) : Prop :=
  a.steps ≤ b.steps ∧ a.distance ≤ b.distance ∧ a.energy ≤ b.energy

/-- The skip conditions of claim C9 on a sleep record: missing start or end
attribute, an unparsable start or end timestamp, or non-positive duration. -/
def skipCond (r : SleepRecord) : Prop :=
  r.startRaw = none ∨ r.endRaw = none ∨ (∃ d, r.startRaw = some (d, none)) ∨
    r.endRaw = some none ∨
    (∃ d s e, r.startRaw = some (d, some s) ∧ r.endRaw = some (some e) ∧ e - s ≤ 0)

/-- Fixture: an in-bed interval on day 0, from minute 60 to minute 120. -/
def recInBedDay0 : SleepRecord :=
  ⟨some (0, some 60), some (some 120), "HKCategoryValueSleepAnalysisInBed"⟩

/-- Fixture: a zero-duration deep-sleep record on day 5 (start = end). -/
def recZeroDurDay5 : SleepRecord :=
  ⟨some (5, some 1000), some (some 1000), "HKCategoryValueSleepAnalysisAsleepDeep"⟩

/-- Fixture: a step-count record on day 0, value 100, from an Apple Watch. -/
def recStepWatch : ARecord :=
  ⟨some stepCountType, some 0, .num 100, none, some "Apple Watch"⟩

/-- Fixture: a distance record on day 0, 1000 metres, from an iPhone. -/
def recDistPhone : ARecord :=
  ⟨some distanceType, some 0, .num 1000, some "m", some "iPhone"⟩

/-- Fixture: a step-count record on day 0 with a negative value, from a watch. -/
def recStepNeg : ARecord :=
  ⟨some stepCountType, some 0, .num (-100), none, some "Apple Watch"⟩

/-- Fixture: a distance record on day 0 from an Apple Watch, with no preceding
step-count record to assign the `source` local. -/
def recDistFirst : ARecord :=
  ⟨some distanceType, some 0, .num 100, some "km", some "Apple Watch"⟩

/-- Fixture: an activity record skipped for having an empty `type` attribute. -/
def recEmptyType : ARecord :=
  ⟨some "", some 0, .num 5, none, none⟩

/-- Fixture: the initial activity state over an arbitrary window. -/
def actSt0 : ActState := ⟨none, fun _ => ABucket.zero, fun _ _ => 0⟩

/-- Fixture: a sleep state with a single zeroed day bucket. -/
def slSt0 : SleepState := ⟨[0], fun _ => SBucket.zero⟩

/-- Fixture: the activity result rows for an empty export, `today = 10`, 3 days. -/
def emptyRows : List ActOut := [⟨8, 0, 0, 0⟩, ⟨9, 0, 0, 0⟩, ⟨10, 0, 0, 0⟩]

/-- Fixture: an activity state whose `source` local holds a watch source. -/
def actStW : ActState := ⟨some "apple watch", fun _ => ABucket.zero, fun _ _ => 0⟩

/-! ## Helper lemmas -/

theorem containsSub_mono {v : String} (a b : String) (hab : containsSub a b = true)
    (h : containsSub v a = true) : containsSub v b = true := by
  unfold containsSub at *
  exact decide_eq_true ((of_decide_eq_true hab).trans (of_decide_eq_true h))

theorem sBucketLe_refl (b : SBucket) : sBucketLe b b := by
  unfold sBucketLe; exact ⟨le_refl _, le_refl _, le_refl _, le_refl _, le_refl _, le_refl _⟩

theorem aBucketLe_refl (b : ABucket) : aBucketLe b b := by
  unfold aBucketLe; exact ⟨le_refl _, le_refl _, le_refl _⟩

theorem classify_le (v : String) (dur : ℚ) (b : SBucket) (h : 0 ≤ dur) :
    sBucketLe b (classify v dur b) := by
  unfold classify sBucketLe
  split_ifs <;> simp <;> linarith

theorem sleepAdd_mono (st : SleepState) (d0 : Int) (v : String) (dur : ℚ)
    (h : 0 ≤ dur) (d : Int) : sBucketLe (st.f d) ((sleepAdd st d0 v dur).f d) := by
  unfold sleepAdd
  dsimp only
  by_cases hd : d = d0
  · rw [if_pos hd]; exact classify_le _ _ _ h
  · rw [if_neg hd]; exact sBucketLe_refl _

theorem keyExtend_f (st : SleepState) (d0 : Int) :
    ((if d0 ∈ st.keys then st else { st with keys := st.keys ++ [d0] }) : SleepState).f
      = st.f := by
  split <;> rfl

theorem sleepStep_mono (st : SleepState) (r : SleepRecord) (d : Int) :
    sBucketLe (st.f d) ((sleepStep st r).f d) := by
  unfold sleepStep
  rcases r.startRaw with _ | ⟨d0, ts⟩
  · exact sBucketLe_refl _
  · rcases r.endRaw with _ | te
    · exact sBucketLe_refl _
    · rcases ts with _ | s
      · exact sBucketLe_refl _
      · rcases te with _ | e
        · exact sBucketLe_refl _
        · dsimp only
          by_cases hdur : e - s ≤ 0
          · rw [if_pos hdur]; exact sBucketLe_refl _
          · rw [if_neg hdur]
            have h0 := sleepAdd_mono
              (if d0 ∈ st.keys then st else { st with keys := st.keys ++ [d0] })
              d0 r.value (e - s) (by linarith [not_le.mp hdur]) d
            rw [keyExtend_f] at h0
            exact h0

theorem pyTrunc_nonneg {q : ℚ} (h : 0 ≤ q) : 0 ≤ pyTrunc q := by
  unfold pyTrunc
  rw [if_pos h]
  exact Int.floor_nonneg.mpr h

theorem distConv_nonneg {v : ℚ} (u : String) (h : 0 ≤ v) : 0 ≤ distConv v u := by
  unfold distConv
  split_ifs
  · exact mul_nonneg h (by norm_num)
  · exact mul_nonneg h (by norm_num)
  · exact div_nonneg h (by norm_num)
  · exact div_nonneg h (by norm_num)

theorem energyConv_nonneg {v : ℚ} (u : String) (h : 0 ≤ v) : 0 ≤ energyConv v u := by
  unfold energyConv
  split_ifs
  · exact mul_nonneg h (by norm_num)
  · exact mul_nonneg h (by norm_num)
  · exact h

/-! ## Claim theorems -/

/-- C6 (confirmed): the sleep stage classification of `get_sleep_data` is exactly
the claimed precedence chain (InBed, then Core adding to asleep and light, then
Deep adding to asleep and deep, then REM adding to asleep and rem, then the
generic Asleep fallback adding to asleep and light, then Awake, else no change):
the code's extra `AsleepCore`/`AsleepDeep`/`AsleepREM` disjuncts are absorbed by
the shorter substring tests. -/
theorem c6_classification : ∀ (v : String) (dur : ℚ) (b : SBucket),
    classify v dur b = classifyClaimed v dur b := by
  intro v dur b
  unfold classify classifyClaimed
  have hc : (containsSub v "AsleepCore" || containsSub v "Core") = containsSub v "Core" := by
    cases h : containsSub v "AsleepCore"
    · simp
    · simp [containsSub_mono "AsleepCore" "Core" (by decide) h]
  have hd : (containsSub v "AsleepDeep" || containsSub v "Deep") = containsSub v "Deep" := by
    cases h : containsSub v "AsleepDeep"
    · simp
    · simp [containsSub_mono "AsleepDeep" "Deep" (by decide) h]
  have hr : (containsSub v "AsleepREM" || containsSub v "REM") = containsSub v "REM" := by
    cases h : containsSub v "AsleepREM"
    · simp
    · simp [containsSub_mono "AsleepREM" "REM" (by decide) h]
  rw [hc, hd, hr]

/-- C9 (corrected): a sleep record with missing start or end, an unparsable
timestamp, or non-positive duration (in particular start = end) is skipped in
the accumulation pass: it changes no bucket field and the fold over the
remaining records proceeds as if it were absent. (The record's start date still
feeds span discovery, which the amendment acknowledges; see the
counterexample.) -/
theorem c9_skip_semantics (r : SleepRecord) (h : skipCond r) :
    (∀ st, sleepStep st r = st) ∧
    (∀ (st : SleepState) (pre post : List SleepRecord),
      (pre ++ r :: post).foldl sleepStep st = (pre ++ post).foldl sleepStep st) := by
  have h1 : ∀ st, sleepStep st r = st := by
    intro st
    unfold sleepStep
    rcases h with h | h | ⟨d, h⟩ | h | ⟨d, s, e, hs, he, hd⟩
    · rw [h]
    · rcases hs : r.startRaw with _ | ⟨d, ts⟩
      · rfl
      · rw [h]
    · rw [h]
      rcases r.endRaw with _ | te
      · rfl
      · rfl
    · rw [h]
      rcases r.startRaw with _ | ⟨d0, ts⟩
      · rfl
      · rcases ts with _ | s <;> rfl
    · rw [hs, he]
      dsimp only
      rw [if_pos hd]
  refine ⟨h1, fun st pre post => ?_⟩
  rw [List.foldl_append, List.foldl_append, List.foldl_cons, h1]

/-- C9 witness: the skip facts at a concrete zero-duration record (start equal
to end on day 5) and a concrete state. -/
theorem c9_skip_semantics_witness :
    sleepStep slSt0 recZeroDurDay5 = slSt0 ∧
    ([recInBedDay0] ++ recZeroDurDay5 :: []).foldl sleepStep slSt0
      = ([recInBedDay0] ++ []).foldl sleepStep slSt0 := by
  have h := c9_skip_semantics recZeroDurDay5
    (Or.inr (Or.inr (Or.inr (Or.inr ⟨5, 1000, 1000, rfl, rfl, by norm_num⟩))))
  exact ⟨h.1 slSt0, h.2 slSt0 [recInBedDay0] []⟩

/-- C9 counterexample: the claim's "no effect on any bucket" fails for the whole
call: adding the zero-duration record `recZeroDurDay5` (start = end, day 5) to
an export containing only `recInBedDay0` (day 0) changes the emitted result,
because its start date widens the discovered span and the zero-valued buckets
survive the ineffective non-empty filter. -/
theorem c9_effect_on_output :
    getSleepData 1 ⟨[recInBedDay0, recZeroDurDay5], false⟩
      ≠ getSleepData 1 ⟨[recInBedDay0], false⟩ := by
  have h1 : getSleepData 1 ⟨[recInBedDay0, recZeroDurDay5], false⟩
      = [⟨6, 0, 0, 0, 0, 0, 0⟩] := by
    norm_num +decide [getSleepData, recInBedDay0, recZeroDurDay5, sleepInitKeys,
      sleepDatesOf, sleepStep, sleepAdd, classify, containsSub, anyValues, mkSleepOut,
      SBucket.zero, List.insertionSort, List.orderedInsert, SleepOut.mk.injEq]
  have h2 : getSleepData 1 ⟨[recInBedDay0], false⟩ = [⟨1, 0, 0, 0, 0, 0, 0⟩] := by
    norm_num +decide [getSleepData, recInBedDay0, sleepInitKeys, sleepDatesOf,
      sleepStep, sleepAdd, classify, containsSub, anyValues, mkSleepOut,
      SBucket.zero, List.insertionSort, List.orderedInsert, SleepOut.mk.injEq]
  rw [h1, h2]
  simp

/-- C1 (code_bug): the all-zero day bucket for day 1 is emitted. With a single
in-bed record on day 0, the result contains day 1 with all six fields zero:
the filter `any(data.values())` is always true because the bucket's `date`
string is among the tested values (and the off-by-one initialization creates
day 1 in the first place). -/
theorem c1_zero_day_emitted :
    getSleepData 30 ⟨[recInBedDay0], false⟩
      = [⟨1, 0, 0, 0, 0, 0, 0⟩, ⟨0, 60, 0, 0, 0, 0, 0⟩] ∧
    anyValues 1 SBucket.zero = true := by
  refine ⟨?_, by decide⟩
  norm_num +decide [getSleepData, recInBedDay0, sleepInitKeys, sleepDatesOf, sleepStep,
    sleepAdd, classify, containsSub, anyValues, mkSleepOut, SBucket.zero,
    List.insertionSort, List.orderedInsert, SleepOut.mk.injEq]

/-- C4 (code_bug): with a single sleep record on day 0 the observed span is the
single date 0, yet two buckets are initialized (days 0 and 1): the loop runs
`range(delta_days + 1)` after `delta_days` was already computed with `+ 1`. -/
theorem c4_extra_bucket :
    sleepDatesOf [recInBedDay0] = [0] ∧ sleepInitKeys [recInBedDay0] = [0, 1] := by
  constructor <;> decide

/-- C8 (corrected): processing one record never decreases any bucket field, for
the sleep aggregator unconditionally (durations are only added after the
positivity check) and for the activity aggregator provided the record's parsed
numeric value is non-negative (the code never validates this, see the
counterexample). -/
theorem c8_monotone :
    (∀ (st : SleepState) (r : SleepRecord) (d : Int),
        sBucketLe (st.f d) ((sleepStep st r).f d)) ∧
    (∀ (keys : List Int) (st : ActState) (e : ARecord) (st' : ActState),
        (∀ q, e.value = .num q → 0 ≤ q) →
        processElem keys st e = .ok st' → ∀ d, aBucketLe (st.f d) (st'.f d)) := by
  constructor
  · exact sleepStep_mono
  · intro keys st e st' hval hok d
    unfold processElem at hok
    rcases hty : e.type_ with _ | t
    · rw [hty] at hok; cases hok; exact aBucketLe_refl _
    · rw [hty] at hok
      dsimp only at hok
      by_cases ht0 : t = ""
      · rw [if_pos ht0] at hok; cases hok; exact aBucketLe_refl _
      · rw [if_neg ht0] at hok
        by_cases htm : ¬(t = stepCountType ∨ t = distanceType ∨ t = activeEnergyType)
        · rw [if_pos htm] at hok; cases hok; exact aBucketLe_refl _
        · rw [if_neg htm] at hok
          rcases hsd : e.startDate with _ | d0
          · rw [hsd] at hok; cases hok; exact aBucketLe_refl _
          · rw [hsd] at hok
            dsimp only at hok
            by_cases hmem : d0 ∉ keys
            · rw [if_pos hmem] at hok; cases hok; exact aBucketLe_refl _
            · rw [if_neg hmem] at hok
              rcases hv : e.value with _ | _ | v
              · rw [hv] at hok; cases hok; exact aBucketLe_refl _
              · rw [hv] at hok; cases hok; exact aBucketLe_refl _
              · rw [hv] at hok
                dsimp only at hok
                have hv0 : (0:ℚ) ≤ v := hval v hv
                by_cases hsc : t = stepCountType
                · rw [if_pos hsc] at hok
                  by_cases hw : containsSub (pyLower (e.sourceName.getD "unknown")) "watch"
                  · rw [if_pos hw] at hok
                    cases hok
                    unfold addSteps aBucketLe
                    dsimp only
                    by_cases hd : d = d0
                    · rw [if_pos hd]
                      exact ⟨le_add_of_nonneg_right (pyTrunc_nonneg hv0),
                        le_refl _, le_refl _⟩
                    · rw [if_neg hd]; exact aBucketLe_refl _
                  · rw [if_neg hw] at hok; cases hok; exact aBucketLe_refl _
                · rw [if_neg hsc] at hok
                  by_cases hdt : t = distanceType
                  · rw [if_pos hdt] at hok
                    rcases hsrc : st.source with _ | s
                    · rw [hsrc] at hok; exact absurd hok (by simp)
                    · rw [hsrc] at hok
                      dsimp only at hok
                      by_cases hw : containsSub (pyLower s) "watch"
                      · rw [if_pos hw] at hok
                        cases hok
                        unfold addDist aBucketLe
                        dsimp only
                        by_cases hd : d = d0
                        · rw [if_pos hd]
                          exact ⟨le_refl _,
                            le_add_of_nonneg_right (distConv_nonneg _ hv0), le_refl _⟩
                        · rw [if_neg hd]; exact aBucketLe_refl _
                      · rw [if_neg hw] at hok; cases hok; exact aBucketLe_refl _
                  · rw [if_neg hdt] at hok
                    rcases hsrc : st.source with _ | s
                    · rw [hsrc] at hok; exact absurd hok (by simp)
                    · rw [hsrc] at hok
                      dsimp only at hok
                      by_cases hw : containsSub (pyLower s) "watch"
                      · rw [if_pos hw] at hok
                        cases hok
                        unfold addEnergy aBucketLe
                        dsimp only
                        by_cases hd : d = d0
                        · rw [if_pos hd]
                          exact ⟨le_refl _, le_refl _,
                            le_add_of_nonneg_right (energyConv_nonneg _ hv0)⟩
                        · rw [if_neg hd]; exact aBucketLe_refl _
                      · rw [if_neg hw] at hok; cases hok; exact aBucketLe_refl _

/-- C8 witness: both parts applied at concrete inputs; the activity part at a
record with non-negative value 5 processed without error. -/
theorem c8_monotone_witness :
    sBucketLe (slSt0.f 0) ((sleepStep slSt0 recInBedDay0).f 0) ∧
    aBucketLe (actSt0.f 0) (actSt0.f 0) := by
  refine ⟨c8_monotone.1 slSt0 recInBedDay0 0, ?_⟩
  exact c8_monotone.2 [0] actSt0 recEmptyType actSt0
    (fun q h => by cases h; norm_num) rfl 0

/-- C8 counterexample: the claim as stated (monotone for every input) fails: a
step-count record with value -100 from a watch source drives the steps field of
day 0 from its initial 0 down to -100 in the final result. -/
theorem c8_negative_value_decreases :
    parseActivityData 0 1 ⟨[recStepNeg], false⟩ = .ok [⟨0, -100, 0, 0⟩] ∧
    (-100 : Int) < 0 := by
  refine ⟨?_, by norm_num⟩
  norm_num +decide [parseActivityData, recStepNeg, windowKeys, processElem, stepCountType,
    distanceType, activeEnergyType, pyLower, lowerChar, pyTrunc, containsSub, addSteps,
    bumpTally, ABucket.zero, assembleActivity, round2, List.insertionSort,
    List.orderedInsert, ActOut.mk.injEq, List.foldlM, Bind.bind, Except.bind, Pure.pure,
    Except.pure]

/-- C2 (code_bug): a distance record whose own source is an iPhone still adds
its converted value (1000 m to 1.0 km) to the day bucket, because the code
tests the stale `source` variable assigned by the preceding step-count record
(an Apple Watch) instead of the distance record's own `sourceName`. -/
theorem c2_stale_source_filter :
    parseActivityData 0 1 ⟨[recStepWatch, recDistPhone], false⟩ = .ok [⟨0, 100, 1, 0⟩] ∧
    containsSub (pyLower ((recDistPhone.sourceName).getD "unknown")) "watch" = false := by
  refine ⟨?_, by decide⟩
  norm_num +decide [parseActivityData, recStepWatch, recDistPhone, windowKeys, processElem,
    stepCountType, distanceType, activeEnergyType, pyLower, lowerChar, pyTrunc, containsSub,
    addSteps, addDist, bumpTally, ABucket.zero, assembleActivity, round2, distConv,
    List.insertionSort, List.orderedInsert, ActOut.mk.injEq, List.foldlM, Bind.bind,
    Except.bind, Pure.pure, Except.pure]

/-- C10 (confirmed): when the first in-window recognized record is a distance
record (no step-count record has assigned the `source` local), the whole call
aborts with the uncaught unbound-local error instead of skipping the record or
returning a result — even though the record's own source is an Apple Watch. -/
theorem c10_unbound_source :
    parseActivityData 0 1 ⟨[recDistFirst], false⟩ = .error .unboundLocal ∧
    recDistFirst.sourceName = some "Apple Watch" := by
  refine ⟨?_, rfl⟩
  norm_num +decide [parseActivityData, recDistFirst, windowKeys, processElem, stepCountType,
    distanceType, activeEnergyType, pyLower, lowerChar, containsSub, ABucket.zero,
    List.foldlM, Bind.bind, Except.bind, Pure.pure, Except.pure]

/-- C3 (corrected, positive part): whenever the activity call returns a result
and `days` lies in `[1, 30]`, the result has exactly `days` entries whose dates
are the contiguous ascending run of calendar dates ending on the current day.
(The lower clamp claimed by the spec does not exist; see the counterexample.) -/
theorem c3_window_shape (today days : Int) (src : XmlSource ARecord) (res : List ActOut)
    (h1 : 1 ≤ days) (h2 : days ≤ 30)
    (hok : parseActivityData today days src = .ok res) :
    res.length = days.toNat ∧
    res.map (fun o => o.date)
      = (List.range days.toNat).map (fun (i : ℕ) => today - (days - 1) + (i : Int)) := by
  have hmin : min days 30 = days := min_eq_left h2
  unfold parseActivityData at hok
  dsimp only at hok
  rcases hfold : src.records.foldlM (processElem (windowKeys today days))
      ⟨none, fun _ => ABucket.zero, fun _ _ => 0⟩ with e | st
  · rw [hfold] at hok; cases hok
  · rw [hfold] at hok
    dsimp only at hok
    by_cases hm : src.malformed
    · rw [if_pos hm] at hok; cases hok
    · rw [if_neg hm] at hok
      cases hok
      unfold assembleActivity windowKeys
      rw [hmin]
      have hsorted : List.Sorted (fun a b : ActOut => a.date ≤ b.date)
          (((List.range days.toNat).map (fun (i : ℕ) => (today - (days - 1)) + (i : Int))).map
            (fun d => (⟨d, (st.f d).steps, round2 (st.f d).distance,
              round2 (st.f d).energy⟩ : ActOut))) := by
        rw [List.map_map]
        refine List.Pairwise.map _ ?_ (List.pairwise_lt_range days.toNat)
        intro a b hab
        dsimp only [Function.comp]
        exact add_le_add_left (Int.ofNat_le.mpr (le_of_lt hab)) _
      rw [List.Sorted.insertionSort_eq hsorted]
      constructor
      · rw [List.length_map, List.length_map, List.length_range]
      · rw [List.map_map, List.map_map]
        rfl

/-- C3 witness: the shape facts at `today = 10`, `days = 3`, empty export. -/
theorem c3_window_shape_witness :
    parseActivityData 10 3 ⟨[], false⟩ = .ok emptyRows ∧
    emptyRows.length = (3 : Int).toNat ∧
    emptyRows.map (fun o => o.date)
      = (List.range (3 : Int).toNat).map (fun (i : ℕ) => 10 - ((3 : Int) - 1) + (i : Int)) := by
  have hok : parseActivityData 10 3 ⟨[], false⟩ = .ok emptyRows := by
    norm_num +decide [parseActivityData, windowKeys, ABucket.zero, assembleActivity, round2,
      List.insertionSort, List.orderedInsert, List.foldlM, Pure.pure, Except.pure, emptyRows,
      ActOut.mk.injEq]
  have h := c3_window_shape 10 3 ⟨[], false⟩ emptyRows (by norm_num) (by norm_num) hok
  exact ⟨hok, h.1, h.2⟩

/-- C3 counterexample: there is no lower clamp: for `days = 0` the code returns
an empty result, where clamping `days` into `[1, 30]` would give one entry. -/
theorem c3_no_lower_clamp :
    parseActivityData 0 0 ⟨[], false⟩ = .ok [] ∧
    ([] : List ActOut).length ≠ (min (max (0 : Int) 1) 30).toNat := by
  constructor
  · norm_num +decide [parseActivityData, windowKeys, ABucket.zero, assembleActivity,
      List.insertionSort, List.foldlM, Pure.pure, Except.pure]
  · norm_num

/-- C5 (corrected): on a malformed source the activity path aborts with an
error (it never returns a result, so accumulated buckets are discarded), but
the sleep path catches the parse failure and returns the empty list rather
than surfacing an error. -/
theorem c5_malformed_semantics (today days : Int) (sdays : Nat)
    (srcA : XmlSource ARecord) (srcS : XmlSource SleepRecord)
    (hA : srcA.malformed = true) (hS : srcS.malformed = true) :
    (parseActivityData today days srcA).isOk = false ∧ getSleepData sdays srcS = [] := by
  constructor
  · unfold parseActivityData
    dsimp only
    rcases hfold : srcA.records.foldlM (processElem (windowKeys today days))
        ⟨none, fun _ => ABucket.zero, fun _ _ => 0⟩ with e | st
    · simp [Except.isOk, Except.toBool]
    · simp [Except.isOk, Except.toBool, hA]
  · unfold getSleepData
    rw [if_pos hS]

/-- C5 witness: the two behaviors at concrete malformed sources. -/
theorem c5_malformed_semantics_witness :
    (parseActivityData 0 1 ⟨[], true⟩).isOk = false ∧
    getSleepData 3 ⟨[], true⟩ = [] :=
  c5_malformed_semantics 0 1 3 ⟨[], true⟩ ⟨[], true⟩ rfl rfl

/-- C5 counterexample: the claim that the sleep path surfaces a fatal
malformed-input error is false: on a malformed source (even one whose scanned
prefix contains a sleep record) `get_sleep_data` returns the ordinary empty
list to the caller. -/
theorem c5_sleep_swallows_error :
    getSleepData 30 ⟨[recInBedDay0], true⟩ = [] := by
  simp [getSleepData]

/-- C7 (confirmed): unit normalization is the claimed pure per-record mapping
with case-insensitive substring matching and first-rule-wins ordering: distance
is scaled by 1.60934 on a miles marker, 0.0003048 on feet, and 0.001 otherwise
(meters marker, absent unit, or anything else); energy is scaled by 0.239006 on
a kilojoule marker, 0.000239006 on joule, and unchanged otherwise (kilocalories
or absent unit); and each contributing distance or energy record is converted
individually before being added to its day bucket. -/
theorem c7_unit_normalization :
    (∀ (v : ℚ) (u : String), containsSub (pyLower u) "mi" = true →
        distConv v (pyLower u) = v * (160934 / 100000)) ∧
    (∀ (v : ℚ) (u : String), containsSub (pyLower u) "mi" = false →
        containsSub (pyLower u) "ft" = true →
        distConv v (pyLower u) = v * (3048 / 10000000)) ∧
    (∀ (v : ℚ) (u : String), containsSub (pyLower u) "mi" = false →
        containsSub (pyLower u) "ft" = false →
        distConv v (pyLower u) = v / 1000) ∧
    (∀ (v : ℚ) (u : String), containsSub (pyLower u) "kj" = true →
        energyConv v (pyLower u) = v * (239006 / 1000000)) ∧
    (∀ (v : ℚ) (u : String), containsSub (pyLower u) "kj" = false →
        containsSub (pyLower u) "j" = true →
        energyConv v (pyLower u) = v * (239006 / 1000000000)) ∧
    (∀ (v : ℚ) (u : String), containsSub (pyLower u) "kj" = false →
        containsSub (pyLower u) "j" = false →
        energyConv v (pyLower u) = v) ∧
    (∀ (keys : List Int) (st : ActState) (d : Int) (v : ℚ) (u srcName : Option String)
        (s : String), st.source = some s → containsSub (pyLower s) "watch" = true →
        d ∈ keys →
        processElem keys st ⟨some distanceType, some d, .num v, u, srcName⟩
          = .ok (addDist st d (distConv v (pyLower (u.getD ""))))) ∧
    (∀ (keys : List Int) (st : ActState) (d : Int) (v : ℚ) (u srcName : Option String)
        (s : String), st.source = some s → containsSub (pyLower s) "watch" = true →
        d ∈ keys →
        processElem keys st ⟨some activeEnergyType, some d, .num v, u, srcName⟩
          = .ok (addEnergy st d (energyConv v (pyLower (u.getD ""))))) := by
  refine ⟨?_, ?_, ?_, ?_, ?_, ?_, ?_, ?_⟩
  · intro v u h; unfold distConv; rw [if_pos h]
  · intro v u h1 h2; unfold distConv; rw [if_neg (by simp [h1]), if_pos h2]
  · intro v u h1 h2; unfold distConv
    rw [if_neg (by simp [h1]), if_neg (by simp [h2])]
    by_cases hm : containsSub (pyLower u) "m" = true
    · rw [if_pos hm]
    · rw [if_neg hm]
  · intro v u h; unfold energyConv; rw [if_pos h]
  · intro v u h1 h2; unfold energyConv; rw [if_neg (by simp [h1]), if_pos h2]
  · intro v u h1 h2; unfold energyConv; rw [if_neg (by simp [h1]), if_neg (by simp [h2])]
  · intro keys st d v u srcName s hsrc hw hmem
    unfold processElem
    dsimp only
    rw [if_neg (by decide), if_neg (by decide), if_neg (not_not_intro hmem),
      if_neg (by decide), if_pos rfl, hsrc]
    dsimp only
    rw [if_pos hw]
  · intro keys st d v u srcName s hsrc hw hmem
    unfold processElem
    dsimp only
    rw [if_neg (by decide), if_neg (by decide), if_neg (not_not_intro hmem),
      if_neg (by decide), if_neg (by decide), hsrc]
    dsimp only
    rw [if_pos hw]

/-- C7 witness: the conversion rules and the per-record accumulation applied at
concrete units (a capitalized miles marker, a meters unit, a kilojoule unit)
and a concrete in-window distance record. -/
theorem c7_unit_normalization_witness :
    distConv 5 (pyLower "MI") = 5 * (160934 / 100000) ∧
    distConv 7 (pyLower "km") = 7 / 1000 ∧
    energyConv 9 (pyLower "kJ") = 9 * (239006 / 1000000) ∧
    processElem [0] actStW ⟨some distanceType, some 0, .num 1000, some "m", some "iPhone"⟩
      = .ok (addDist actStW 0 (distConv 1000 (pyLower ((some "m" : Option String).getD ""))))
    := by
  refine ⟨c7_unit_normalization.1 5 "MI" (by decide),
    c7_unit_normalization.2.2.1 7 "km" (by decide) (by decide),
    c7_unit_normalization.2.2.2.1 9 "kJ" (by decide),
    c7_unit_normalization.2.2.2.2.2.2.1 [0] actStW 0 1000 (some "m") (some "iPhone")
      "apple watch" rfl (by decide) (by decide)⟩

end HealthData
